import Mathlib

/-!
# Verification of the payroll bot's hours-extraction-and-accumulation pipeline

Shallow embedding of `main.py` (class `PayrollBot`).  Text is modelled as
`List Char`; Python `float` values are modelled as exact rationals `ℚ`
(the inputs at stake are short decimal literals, far below any binary
rounding concern); the SQLite table `work_log (user_id, date, hours)` is
modelled as an append-only list of records.
-/

namespace Payroll

/-- One row of the `work_log` table: `(user_id INTEGER, date TEXT, hours REAL)`. -/
structure Entry where
  user_id : Int
  date : String
  hours : ℚ
deriving DecidableEq, Repr

/-- The ledger: the `work_log` table contents, in insertion order. -/
abbrev Ledger := List Entry

/-- `HOURLY_RATE: Final = 31.7` from the configuration block. -/
def HOURLY_RATE : ℚ := 317 / 10

/-! ## Python string primitives used by `handle_photo` -/

/-- Python `pat in s` on strings: substring containment test. -/
def pyIn (pat s : List Char) : Bool :=
  s.tails.any (fun t => pat.isPrefixOf t)

/-- Python `s.split(sep)` for a one-character separator: splits on every
occurrence, keeping empty segments, and always returns at least one segment. -/
def pySplit (sep : Char) : List Char → List (List Char)
  | [] => [[]]
  | c :: r =>
    if c = sep then [] :: pySplit sep r
    else
      match pySplit sep r with
      | [] => [[c]]
      | h :: t => (c :: h) :: t

/-- Python `s.strip()`: drop leading and trailing whitespace. -/
def pyStrip (l : List Char) : List Char :=
  ((l.dropWhile Char.isWhitespace).reverse.dropWhile Char.isWhitespace).reverse

/-- Python `s.replace(',', '.')`: the separators are single characters, so this
is a character map. -/
def commaToDot (l : List Char) : List Char :=
  l.map (fun c => if c = ',' then '.' else c)

/-! ## Python `float()` on trusted-shape text

Model of `float(s)` for finite decimal/scientific literals: optional sign,
digits with at most one point (at least one digit), optional exponent.
Python additionally accepts `inf`/`nan` (no value in `ℚ`; such inputs are
outside this model) and underscore digit grouping (likewise unmodelled). -/

/-- Numeric value of a digit string read in base 10 (`"0037"` ↦ `37`). -/
def natOfDigits (l : List Char) : ℕ :=
  l.foldl (fun a c => 10 * a + (c.toNat - 48)) 0

/-- Leading-sign split: `"-x"` ↦ `(-1, "x")`, `"+x"` ↦ `(1, "x")`, else sign 1. -/
def parseSign (l : List Char) : ℚ × List Char :=
  match l with
  | [] => (1, [])
  | c :: r => if c = '-' then (-1, r) else if c = '+' then (1, r) else (1, c :: r)

/-- Mantissa `digits ['.' digits]` with at least one digit overall; returns its
value and the unconsumed remainder. -/
def parseMantissa (l : List Char) : Option (ℚ × List Char) :=
  let ip := l.takeWhile Char.isDigit
  let r1 := l.dropWhile Char.isDigit
  if r1.head? = some '.' then
    let fp := r1.tail.takeWhile Char.isDigit
    if ip = [] ∧ fp = [] then none
    else some ((natOfDigits ip : ℚ) + (natOfDigits fp : ℚ) / (10 : ℚ) ^ fp.length,
               r1.tail.dropWhile Char.isDigit)
  else if ip = [] then none
  else some ((natOfDigits ip : ℚ), r1)

/-- Python `float(s)` on an already-stripped string, for finite literals:
`none` models the `ValueError` raised on anything else. -/
def pyFloat (l : List Char) : Option ℚ :=
  let s := (parseSign l).1
  match parseMantissa (parseSign l).2 with
  | none => none
  | some (m, r1) =>
    if r1 = [] then some (s * m)
    else if r1.head? = some 'e' ∨ r1.head? = some 'E' then
      let es := (parseSign r1.tail).1
      let r3 := (parseSign r1.tail).2
      let ed := r3.takeWhile Char.isDigit
      if ed = [] ∨ r3.dropWhile Char.isDigit ≠ [] then none
      else some (s * m * (10 : ℚ) ^ (if es = -1 then -(natOfDigits ed : ℤ) else (natOfDigits ed : ℤ)))
    else none

/-! ## The extraction pipeline (`PayrollBot.handle_photo`, lines 90–96) -/

/-- The marker token the model is told to prefix hours with (line 90). -/
def marker : List Char := "SUM_HOURS:".data

/-- The not-found token the model is told to answer with (prompt, line 84). -/
def notFoundTok : List Char := "NOT_FOUND".data

/-- Line 91: `float(result.split(":")[1].strip().replace(',', '.'))`,
`none` when an `IndexError`/`ValueError` would be raised (both are caught by
the surrounding `except`, so they are indistinguishable downstream). -/
def extractHours (result : List Char) : Option ℚ :=
  match (pySplit ':' result).get? 1 with
  | none => none
  | some seg => pyFloat (commaToDot (pyStrip seg))

/-- User-visible outcome of one `handle_photo` call. -/
inductive Outcome where
  /-- `✅ Logged {hours}h from image.` — hours written to the ledger. -/
  | logged (hours : ℚ)
  /-- `⚠️ Could not find hours for specified user.` — the `else` branch,
  reached for `NOT_FOUND` and for any other marker-less text alike. -/
  | noHoursMsg
  /-- `❌ Processing error: …` — the `except` branch. -/
  | procError
deriving DecidableEq, Repr

/-- `PayrollBot._log_hours` (lines 100–103): append one immutable row. -/
def log_hours (led : Ledger) (uid : Int) (d : String) (h : ℚ) : Ledger :=
  led ++ [⟨uid, d, h⟩]

/-- `PayrollBot.handle_photo`, lines 90–96, from the point where the model's
text `result` is in hand: the marker branch converts and logs, the `else`
branch reports no hours, and a conversion failure lands in `except`. -/
def handle_photo (uid : Int) (d : String) (result : List Char) (led : Ledger) :
    Outcome × Ledger :=
  if pyIn marker result then
    match extractHours result with
    | some h => (.logged h, log_hours led uid d h)
    | none => (.procError, led)
  else (.noHoursMsg, led)

/-! ## Summation (`PayrollBot.get_summary`, lines 108–112) -/

/-- `SELECT SUM(hours) FROM work_log WHERE user_id = ?`: SQL `SUM` is `NULL`
(`none`) when no row matches. -/
def sqlSumHours (uid : Int) (led : Ledger) : Option ℚ :=
  match (led.filter (fun e => e.user_id == uid)).map Entry.hours with
  | [] => none
  | hs => some hs.sum

/-- Python `x or 0.0` on the fetched cell (line 110): `None` and `0.0` are
both falsy, so each becomes `0.0`. -/
def pyOrZero : Option ℚ → ℚ
  | none => 0
  | some v => if v = 0 then 0 else v

/-- `total_hours` as computed by `get_summary` (lines 108–110). -/
def sumHours (uid : Int) (led : Ledger) : ℚ :=
  pyOrZero (sqlSumHours uid led)

/-! ## Payout (`get_summary` lines 112 and 118) -/

/-- Round to 2 decimal places, as the `:.2f` format does for reporting
(modelled with half-up rounding on exact rationals; CPython rounds the
underlying binary double half-to-even, which agrees except on exact
half-cent ties that the binary double rarely represents). -/
def roundTo2 (x : ℚ) : ℚ :=
  ((round (x * 100) : ℤ) : ℚ) / 100

/-- The reported payout: `total_pay = total_hours * HOURLY_RATE` (line 112)
displayed as `f"{total_pay:.2f}"` (line 118). -/
def computePay (totalHours rate : ℚ) : ℚ :=
  roundTo2 (totalHours * rate)

/-- Exact value of the decimal numeral `a.b` (integer digits `a`, fraction
digits `b`). -/
def decimalValue (a b : List Char) : ℚ :=
  (natOfDigits a : ℚ) + (natOfDigits b : ℚ) / (10 : ℚ) ^ b.length

/-! ## Character facts -/

lemma isDigit_ne_colon {c : Char} (h : c.isDigit = true) : c ≠ ':' := by
  rintro rfl; exact absurd h (by decide)

lemma isDigit_ne_comma {c : Char} (h : c.isDigit = true) : c ≠ ',' := by
  rintro rfl; exact absurd h (by decide)

lemma isDigit_ne_dot {c : Char} (h : c.isDigit = true) : c ≠ '.' := by
  rintro rfl; exact absurd h (by decide)

lemma isDigit_ne_dash {c : Char} (h : c.isDigit = true) : c ≠ '-' := by
  rintro rfl; exact absurd h (by decide)

lemma isDigit_ne_plus {c : Char} (h : c.isDigit = true) : c ≠ '+' := by
  rintro rfl; exact absurd h (by decide)

lemma isDigit_not_ws {c : Char} (h : c.isDigit = true) : c.isWhitespace = false := by
  by_contra hw
  rw [Bool.not_eq_false] at hw
  simp only [Char.isWhitespace, Bool.or_eq_true, decide_eq_true_eq] at hw
  rcases hw with ((rfl | rfl) | rfl) | rfl <;> exact absurd h (by decide)

/-! ## List-scanning facts -/

lemma takeWhile_of_all {p : Char → Bool} {l : List Char} (h : ∀ c ∈ l, p c = true) :
    l.takeWhile p = l := by
  induction l with
  | nil => rfl
  | cons c r ih =>
    simp only [List.takeWhile_cons, h c (List.mem_cons_self c r), if_true]
    rw [ih fun u hu => h u (List.mem_cons_of_mem c hu)]

lemma dropWhile_of_all {p : Char → Bool} {l : List Char} (h : ∀ c ∈ l, p c = true) :
    l.dropWhile p = [] := by
  induction l with
  | nil => rfl
  | cons c r ih =>
    simp only [List.dropWhile_cons, h c (List.mem_cons_self c r), if_true]
    exact ih fun u hu => h u (List.mem_cons_of_mem c hu)

lemma takeWhile_append_stop {p : Char → Bool} {a : List Char} {x : Char} {y : List Char}
    (ha : ∀ c ∈ a, p c = true) (hx : p x = false) :
    (a ++ x :: y).takeWhile p = a := by
  induction a with
  | nil => simp [List.takeWhile_cons, hx]
  | cons c r ih =>
    simp only [List.cons_append, List.takeWhile_cons, ha c (List.mem_cons_self c r), if_true]
    rw [ih fun u hu => ha u (List.mem_cons_of_mem c hu)]

lemma dropWhile_append_stop {p : Char → Bool} {a : List Char} {x : Char} {y : List Char}
    (ha : ∀ c ∈ a, p c = true) (hx : p x = false) :
    (a ++ x :: y).dropWhile p = x :: y := by
  induction a with
  | nil => simp [List.dropWhile_cons, hx]
  | cons c r ih =>
    simp only [List.cons_append, List.dropWhile_cons, ha c (List.mem_cons_self c r), if_true]
    exact ih fun u hu => ha u (List.mem_cons_of_mem c hu)

lemma dropWhile_of_all_not {p : Char → Bool} {l : List Char} (h : ∀ c ∈ l, p c = false) :
    l.dropWhile p = l := by
  cases l with
  | nil => rfl
  | cons c r => simp [List.dropWhile_cons, h c (List.mem_cons_self c r)]

/-! ## Behaviour of the Python string primitives -/

lemma pySplit_no_sep {sep : Char} {l : List Char} (h : ∀ c ∈ l, c ≠ sep) :
    pySplit sep l = [l] := by
  induction l with
  | nil => rfl
  | cons c r ih =>
    simp only [pySplit, if_neg (h c (List.mem_cons_self c r))]
    rw [ih fun u hu => h u (List.mem_cons_of_mem c hu)]

lemma pySplit_append_sep {sep : Char} {a : List Char} (r : List Char)
    (h : ∀ c ∈ a, c ≠ sep) :
    pySplit sep (a ++ sep :: r) = a :: pySplit sep r := by
  induction a with
  | nil => simp [pySplit]
  | cons c a' ih =>
    simp only [List.cons_append, pySplit, if_neg (h c (List.mem_cons_self c a')),
      List.append_eq]
    rw [ih fun u hu => h u (List.mem_cons_of_mem c hu)]

lemma pyStrip_cons_ws {c : Char} {l : List Char} (h : c.isWhitespace = true) :
    pyStrip (c :: l) = pyStrip l := by
  simp [pyStrip, List.dropWhile_cons, h]

lemma pyStrip_of_no_ws {l : List Char} (h : ∀ c ∈ l, c.isWhitespace = false) :
    pyStrip l = l := by
  unfold pyStrip
  rw [dropWhile_of_all_not h,
    dropWhile_of_all_not fun u hu => h u (List.mem_reverse.mp hu), List.reverse_reverse]

lemma commaToDot_of_digits {l : List Char} (h : ∀ c ∈ l, c.isDigit = true) :
    commaToDot l = l := by
  induction l with
  | nil => rfl
  | cons c r ih =>
    simp only [commaToDot, List.map_cons,
      if_neg (isDigit_ne_comma (h c (List.mem_cons_self c r)))]
    rw [show List.map _ r = commaToDot r from rfl, ih fun u hu => h u (List.mem_cons_of_mem c hu)]

lemma isPrefixOf_append_self (p t : List Char) : p.isPrefixOf (p ++ t) = true := by
  induction p with
  | nil => cases t <;> rfl
  | cons c r ih => simp [List.isPrefixOf, ih]

lemma pyIn_of_append (pat t : List Char) : pyIn pat (pat ++ t) = true := by
  unfold pyIn
  rw [List.any_eq_true]
  exact ⟨pat ++ t, by simp [List.mem_tails], isPrefixOf_append_self pat t⟩

/-! ## Behaviour of the `float()` model on decimal literals -/

lemma parseSign_cons_of {c : Char} (r : List Char) (h1 : c ≠ '-') (h2 : c ≠ '+') :
    parseSign (c :: r) = (1, c :: r) := by
  simp [parseSign, h1, h2]

lemma parseSign_dash (r : List Char) : parseSign ('-' :: r) = (-1, r) := by
  simp [parseSign]

lemma parseMantissa_digits {a : List Char} (ha : a ≠ [])
    (hd : ∀ c ∈ a, c.isDigit = true) :
    parseMantissa a = some ((natOfDigits a : ℚ), []) := by
  unfold parseMantissa
  rw [takeWhile_of_all hd, dropWhile_of_all hd]
  simp [ha]

lemma parseMantissa_digits_dot {a b : List Char} (ha : a ≠ [])
    (hda : ∀ c ∈ a, c.isDigit = true) (hdb : ∀ c ∈ b, c.isDigit = true) :
    parseMantissa (a ++ '.' :: b) = some (decimalValue a b, []) := by
  unfold parseMantissa
  rw [takeWhile_append_stop hda (by decide), dropWhile_append_stop hda (by decide)]
  simp [takeWhile_of_all hdb, dropWhile_of_all hdb, ha, decimalValue]

lemma pyFloat_digits {a : List Char} (ha : a ≠ []) (hd : ∀ c ∈ a, c.isDigit = true) :
    pyFloat a = some ((natOfDigits a : ℚ)) := by
  cases a with
  | nil => exact absurd rfl ha
  | cons c r =>
    have hc := hd c (List.mem_cons_self c r)
    unfold pyFloat
    rw [parseSign_cons_of r (isDigit_ne_dash hc) (isDigit_ne_plus hc)]
    rw [parseMantissa_digits (List.cons_ne_nil c r) hd]
    simp

lemma pyFloat_digits_dot {a b : List Char} (ha : a ≠ [])
    (hda : ∀ c ∈ a, c.isDigit = true) (hdb : ∀ c ∈ b, c.isDigit = true) :
    pyFloat (a ++ '.' :: b) = some (decimalValue a b) := by
  cases a with
  | nil => exact absurd rfl ha
  | cons c r =>
    have hc := hda c (List.mem_cons_self c r)
    unfold pyFloat
    rw [List.cons_append, parseSign_cons_of (r ++ '.' :: b) (isDigit_ne_dash hc)
      (isDigit_ne_plus hc), ← List.cons_append,
      parseMantissa_digits_dot (List.cons_ne_nil c r) hda hdb]
    simp

lemma pyFloat_dash_digits {a : List Char} (ha : a ≠ [])
    (hd : ∀ c ∈ a, c.isDigit = true) :
    pyFloat ('-' :: a) = some (-(natOfDigits a : ℚ)) := by
  unfold pyFloat
  rw [parseSign_dash, parseMantissa_digits ha hd]
  simp

/-! ## Behaviour of the extraction pipeline -/

lemma marker_decompose : marker = "SUM_HOURS".data ++ ':' :: [] := by decide

/-- `result.split(":")[1]` on a marker-led text with no further colon. -/
lemma extractHours_marker {rest : List Char} (h : ∀ c ∈ rest, c ≠ ':') :
    extractHours (marker ++ rest) = pyFloat (commaToDot (pyStrip rest)) := by
  unfold extractHours
  rw [marker_decompose, List.append_assoc, List.singleton_append,
    pySplit_append_sep rest (by decide), pySplit_no_sep h]
  rfl

lemma handle_photo_marker_some {rest : List Char} {q : ℚ}
    (uid : Int) (d : String) (led : Ledger) (h : ∀ c ∈ rest, c ≠ ':')
    (hf : pyFloat (commaToDot (pyStrip rest)) = some q) :
    handle_photo uid d (marker ++ rest) led = (.logged q, log_hours led uid d q) := by
  unfold handle_photo
  rw [if_pos (by rw [pyIn_of_append]), extractHours_marker h, hf]

/-! ## Behaviour of the summation -/

lemma sumHours_eq_filter_sum (uid : Int) (led : Ledger) :
    sumHours uid led = ((led.filter (fun e => e.user_id == uid)).map Entry.hours).sum := by
  unfold sumHours sqlSumHours pyOrZero
  cases h : (led.filter (fun e => e.user_id == uid)).map Entry.hours with
  | nil => simp
  | cons x xs =>
    by_cases hz : (x :: xs).sum = (0 : ℚ)
    · simp [hz]
    · simp [hz]
      exact fun hh => hh.symm

/-! ## Concrete model responses -/

lemma conv_dash3 : pyFloat (commaToDot (pyStrip (' ' :: '-' :: ['3']))) = some (-3) := by
  rw [pyStrip_cons_ws (by decide), pyStrip_of_no_ws (by decide),
    (by decide : commaToDot ('-' :: ['3']) = '-' :: ['3']),
    pyFloat_dash_digits (by decide) (by decide),
    (by decide : natOfDigits ['3'] = 3)]
  norm_num

lemma extractHours_dash3 : extractHours ("SUM_HOURS: -3".data) = some (-3) := by
  rw [(by decide : "SUM_HOURS: -3".data = marker ++ (' ' :: '-' :: ['3'])),
    extractHours_marker (by decide)]
  exact conv_dash3

lemma handle_photo_dash3 (uid : Int) (d : String) (led : Ledger) :
    handle_photo uid d ("SUM_HOURS: -3".data) led
      = (.logged (-3), log_hours led uid d (-3)) := by
  rw [(by decide : "SUM_HOURS: -3".data = marker ++ (' ' :: '-' :: ['3']))]
  exact handle_photo_marker_some uid d led (by decide) conv_dash3

lemma extractHours_nf5 : extractHours ("NOT_FOUND SUM_HOURS: 5".data) = some 5 := by
  unfold extractHours
  rw [(by decide : "NOT_FOUND SUM_HOURS: 5".data
        = "NOT_FOUND SUM_HOURS".data ++ ':' :: (' ' :: ['5'])),
    pySplit_append_sep (' ' :: ['5']) (by decide), pySplit_no_sep (by decide)]
  show pyFloat (commaToDot (pyStrip (' ' :: ['5']))) = some 5
  rw [pyStrip_cons_ws (by decide), pyStrip_of_no_ws (by decide),
    commaToDot_of_digits (by decide), pyFloat_digits (by decide) (by decide),
    (by decide : natOfDigits ['5'] = 5)]
  norm_num

lemma handle_photo_nf5 (uid : Int) (d : String) (led : Ledger) :
    handle_photo uid d ("NOT_FOUND SUM_HOURS: 5".data) led
      = (.logged 5, log_hours led uid d 5) := by
  unfold handle_photo
  rw [(by decide : pyIn marker ("NOT_FOUND SUM_HOURS: 5".data) = true), extractHours_nf5]
  simp

/-! ## The claims -/

/-- C1: the spec's ledger invariant `hours ≥ 0` fails on the code: the
response `"SUM_HOURS: -3"` — an out-of-range extraction the spec classes as
malformed — changes the ledger, storing an entry whose hours are negative. -/
theorem claim_C1_negative_entry_reaches_ledger :
    (handle_photo 1 "2024-06-01" ("SUM_HOURS: -3".data) []).2
        = [⟨1, "2024-06-01", -3⟩]
      ∧ ¬ (∀ e ∈ (handle_photo 1 "2024-06-01" ("SUM_HOURS: -3".data) []).2,
            0 ≤ e.hours) := by
  have h := handle_photo_dash3 1 "2024-06-01" []
  constructor
  · rw [h]; rfl
  · intro hall
    have hm : (⟨1, "2024-06-01", -3⟩ : Entry)
        ∈ (handle_photo 1 "2024-06-01" ("SUM_HOURS: -3".data) []).2 := by
      rw [h]; simp [log_hours]
    have := hall _ hm
    norm_num at this

/-- C2: the code has no out-of-range check: on `"SUM_HOURS: -3"` the numeric
conversion succeeds with `-3` (no `Malformed("out-of-range value")` outcome
exists) and a ledger write occurs. -/
theorem claim_C2_negative_is_logged_not_rejected :
    extractHours ("SUM_HOURS: -3".data) = some (-3)
      ∧ handle_photo 2 "2024-06-02" ("SUM_HOURS: -3".data) []
          = (Outcome.logged (-3), [⟨2, "2024-06-02", -3⟩]) := by
  refine ⟨extractHours_dash3, ?_⟩
  rw [handle_photo_dash3]; rfl

/-- C3: for every text that is the marker followed by a decimal numeral with
a period or comma separator, the pipeline logs the numeral's exact value
(comma normalized to period) and appends it to the ledger. -/
theorem claim_C3_marker_decimal_is_found (a b : List Char) (sep : Char)
    (uid : Int) (d : String) (led : Ledger)
    (ha : a ≠ []) (hda : ∀ c ∈ a, c.isDigit = true)
    (hb : b ≠ []) (hdb : ∀ c ∈ b, c.isDigit = true)
    (hsep : sep = ',' ∨ sep = '.') :
    handle_photo uid d (marker ++ ' ' :: (a ++ sep :: b)) led
      = (Outcome.logged (decimalValue a b),
         log_hours led uid d (decimalValue a b)) := by
  apply handle_photo_marker_some
  · intro c hc
    rcases List.mem_cons.mp hc with rfl | hc2
    · decide
    rcases List.mem_append.mp hc2 with hca | hcs
    · exact isDigit_ne_colon (hda c hca)
    rcases List.mem_cons.mp hcs with rfl | hcb
    · rcases hsep with rfl | rfl <;> decide
    · exact isDigit_ne_colon (hdb c hcb)
  · rw [pyStrip_cons_ws (by decide), pyStrip_of_no_ws ?nws]
    case nws =>
      intro c hc
      rcases List.mem_append.mp hc with hca | hcs
      · exact isDigit_not_ws (hda c hca)
      rcases List.mem_cons.mp hcs with rfl | hcb
      · rcases hsep with rfl | rfl <;> decide
      · exact isDigit_not_ws (hdb c hcb)
    have hcd : commaToDot (a ++ sep :: b) = a ++ '.' :: b := by
      unfold commaToDot
      rw [List.map_append, List.map_cons,
        show List.map _ a = commaToDot a from rfl, commaToDot_of_digits hda,
        show List.map _ b = commaToDot b from rfl, commaToDot_of_digits hdb]
      rcases hsep with rfl | rfl <;> simp
    rw [hcd, pyFloat_digits_dot ha hda hdb]

/-- C3 witness: `"SUM_HOURS: 7,5"` is logged as 7.5 = 15/2. -/
theorem claim_C3_witness :
    handle_photo 8 "2024-06-09" ("SUM_HOURS: 7,5".data) []
      = (Outcome.logged (15 / 2), [⟨8, "2024-06-09", 15 / 2⟩]) := by
  have h := claim_C3_marker_decimal_is_found ['7'] ['5'] ',' 8 "2024-06-09" []
    (by decide) (by decide) (by decide) (by decide) (Or.inl rfl)
  rw [(by decide : "SUM_HOURS: 7,5".data = marker ++ ' ' :: (['7'] ++ ',' :: ['5'])), h]
  norm_num [decimalValue, log_hours,
    (by decide : natOfDigits ['7'] = 7), (by decide : natOfDigits ['5'] = 5)]

/-- C4: appending an entry and then summing for the same subject yields
exactly the previous sum plus the appended hours. -/
theorem claim_C4_append_sum_roundtrip (led : Ledger) (uid : Int) (d : String) (q : ℚ) :
    sumHours uid (log_hours led uid d q) = sumHours uid led + q := by
  rw [sumHours_eq_filter_sum, sumHours_eq_filter_sum]
  unfold log_hours
  rw [List.filter_append, List.map_append, List.sum_append]
  simp [List.filter_cons]

/-- C5 counterexample: `"NOT_FOUND SUM_HOURS: 5"` contains the not-found
token, yet the pipeline writes to the ledger — the claim's universal
quantification over all texts containing the token is false on the code. -/
theorem claim_C5_counterexample :
    pyIn notFoundTok ("NOT_FOUND SUM_HOURS: 5".data) = true
      ∧ (handle_photo 3 "2024-06-03" ("NOT_FOUND SUM_HOURS: 5".data) []).2 ≠ [] := by
  refine ⟨by decide, ?_⟩
  rw [handle_photo_nf5]
  simp [log_hours]

/-- C5 (amended): every response containing the not-found token and not
containing the marker yields the no-hours outcome with the ledger unchanged. -/
theorem claim_C5_notfound_without_marker (uid : Int) (d : String)
    (result : List Char) (led : Ledger)
    (hnf : pyIn notFoundTok result = true) (hm : pyIn marker result = false) :
    handle_photo uid d result led = (Outcome.noHoursMsg, led) := by
  simp [handle_photo, hm]

/-- C5 witness: the raw text `"NOT_FOUND"` itself: no ledger write. -/
theorem claim_C5_witness :
    handle_photo 4 "2024-06-04" ("NOT_FOUND".data) [] = (Outcome.noHoursMsg, []) :=
  claim_C5_notfound_without_marker 4 "2024-06-04" ("NOT_FOUND".data) []
    (by decide) (by decide)

/-- C6 counterexample: a text with neither token produces the very same
outcome as `"NOT_FOUND"` — the code has no `Malformed`/`Rejected` outcome
distinct from the not-found one. -/
theorem claim_C6_counterexample :
    pyIn marker ("garbled response".data) = false
      ∧ pyIn notFoundTok ("garbled response".data) = false
      ∧ (handle_photo 5 "2024-06-05" ("garbled response".data) []).1
          = (handle_photo 5 "2024-06-05" ("NOT_FOUND".data) []).1 := by
  refine ⟨by decide, by decide, ?_⟩
  simp [handle_photo, (by decide : pyIn marker ("garbled response".data) = false),
    (by decide : pyIn marker ("NOT_FOUND".data) = false)]

/-- C6 (amended): every response with neither token is answered by the same
generic no-hours outcome that `"NOT_FOUND"` receives, with no ledger write. -/
theorem claim_C6_no_token_no_write (uid : Int) (d : String)
    (result : List Char) (led : Ledger)
    (hm : pyIn marker result = false) (hnf : pyIn notFoundTok result = false) :
    handle_photo uid d result led = (Outcome.noHoursMsg, led)
      ∧ (handle_photo uid d result led).1
          = (handle_photo uid d ("NOT_FOUND".data) led).1 := by
  constructor
  · simp [handle_photo, hm]
  · simp [handle_photo, hm, (by decide : pyIn marker ("NOT_FOUND".data) = false)]

/-- C6 witness: the marker-less, token-less text `"hello"`. -/
theorem claim_C6_witness :
    handle_photo 6 "2024-06-06" ("hello".data) [] = (Outcome.noHoursMsg, [])
      ∧ (handle_photo 6 "2024-06-06" ("hello".data) []).1
          = (handle_photo 6 "2024-06-06" ("NOT_FOUND".data) []).1 :=
  claim_C6_no_token_no_write 6 "2024-06-06" ("hello".data) [] (by decide) (by decide)

/-- C7: the reported payout is the product of hours and rate rounded to two
decimal places — it is a multiple of 1/100 within half a cent of the exact
product — and in particular 10 hours at the configured rate 31.7 pay 317.00. -/
theorem claim_C7_computePay :
    (∀ th r : ℚ, computePay th r * 100 = round (th * r * 100)
        ∧ |computePay th r - th * r| ≤ 1 / 200
        ∧ ∃ n : ℤ, computePay th r = (n : ℚ) / 100)
      ∧ computePay 10 HOURLY_RATE = 317 := by
  constructor
  · intro th r
    refine ⟨?_, ?_, ⟨round (th * r * 100), rfl⟩⟩
    · unfold computePay roundTo2
      rw [div_mul_cancel₀]
      norm_num
    · unfold computePay roundTo2
      have h1 := abs_sub_round (th * r * 100)
      have h2 : ((round (th * r * 100) : ℤ) : ℚ) / 100 - th * r
          = -((th * r * 100 - round (th * r * 100)) / 100) := by ring
      rw [h2, abs_neg, abs_div, abs_of_pos (by norm_num : (0 : ℚ) < 100)]
      linarith
  · unfold computePay roundTo2 HOURLY_RATE
    rw [show (10 : ℚ) * (317 / 10) * 100 = ((31700 : ℤ) : ℚ) by norm_num,
      round_intCast]
    norm_num

/-- C8: `sumHours` is the sum of the hours of the subject's records, and 0
when the subject has none (SQL `SUM` is `NULL` on no rows, and `or 0.0`
turns the `None` cell into 0.0). -/
theorem claim_C8_sumHours_is_filtered_sum (uid : Int) (led : Ledger) :
    sumHours uid led
        = ((led.filter (fun e => e.user_id == uid)).map Entry.hours).sum
      ∧ (led.filter (fun e => e.user_id == uid) = [] → sumHours uid led = 0) := by
  refine ⟨sumHours_eq_filter_sum uid led, fun hf => ?_⟩
  rw [sumHours_eq_filter_sum, hf]
  rfl

/-- C8 witness: a subject with no records sums to 0. -/
theorem claim_C8_witness : sumHours 9 [] = 0 :=
  (claim_C8_sumHours_is_filtered_sum 9 []).2 rfl

/-- C9: processing one photo event for a sender leaves every other subject's
sum unchanged: the only possible write carries the sender's identifier, and
summation filters by identifier. -/
theorem claim_C9_other_subjects_unchanged (uid : Int) (d : String)
    (result : List Char) (led : Ledger) (s : Int) (hs : s ≠ uid) :
    sumHours s (handle_photo uid d result led).2 = sumHours s led := by
  unfold handle_photo
  cases hin : pyIn marker result
  · simp
  · cases hex : extractHours result with
    | none => simp
    | some q =>
      simp only [if_true]
      show sumHours s (log_hours led uid d q) = sumHours s led
      rw [sumHours_eq_filter_sum, sumHours_eq_filter_sum]
      unfold log_hours
      rw [List.filter_append]
      have hone : List.filter (fun e => e.user_id == s) [(⟨uid, d, q⟩ : Entry)] = [] := by
        simp [List.filter_cons, beq_iff_eq, Ne.symm hs]
      rw [hone]
      simp

/-- C9 witness: subject 2 is unaffected by subject 1's photo event. -/
theorem claim_C9_witness :
    sumHours 2 (handle_photo 1 "2024-06-07" ("SUM_HOURS: 8".data) []).2
      = sumHours 2 [] :=
  claim_C9_other_subjects_unchanged 1 "2024-06-07" ("SUM_HOURS: 8".data) [] 2
    (by decide)

/-- C10: when a response contains both the marker and the not-found token,
the marker branch wins: on successful conversion the hours are logged and
the ledger is written, instead of the not-found outcome. -/
theorem claim_C10_marker_precedence (uid : Int) (d : String)
    (result : List Char) (led : Ledger) (q : ℚ)
    (hm : pyIn marker result = true) (hnf : pyIn notFoundTok result = true)
    (hconv : extractHours result = some q) :
    handle_photo uid d result led
      = (Outcome.logged q, log_hours led uid d q) := by
  unfold handle_photo
  rw [hm, hconv]
  simp

/-- C10 witness: `"NOT_FOUND SUM_HOURS: 5"` contains both tokens and is
logged as 5. -/
theorem claim_C10_witness :
    handle_photo 7 "2024-06-08" ("NOT_FOUND SUM_HOURS: 5".data) []
      = (Outcome.logged 5, [⟨7, "2024-06-08", 5⟩]) := by
  have h := claim_C10_marker_precedence 7 "2024-06-08"
    ("NOT_FOUND SUM_HOURS: 5".data) [] 5 (by decide) (by decide) extractHours_nf5
  rw [h]
  rfl

end Payroll
